import Mathlib

/-
Verification of the pm2-gui real-time telemetry relay.

Shallow embedding of the core server components:
  - PM2EventBus (log ingestion ring buffer, process event handling,
    getRecentLogs) from src/pm2/events.ts
  - PM2Client (connect / ensureConnected / reconnect with backoff)
    from src/pm2/client.ts
  - WebSocketManager (sessions, subscriptions, heartbeat, broadcast)
    from src/websocket/server.ts
  - frontend stores and useWebSocket message dispatch.
-/

namespace PM2GUI

/-- JavaScript truthiness fallback for an optional number: the source writes
x or-else y via the JS or-operator, which falls back when x is undefined or 0. -/
def jsOr (a : Option Nat) (dflt : Nat) : Nat :=
  match a with
  | none => dflt
  | some t => if t = 0 then dflt else t

/-- Stream kind of a log line, the literal union in handleLog. -/
inductive LogType
| out
| err
| pm2
deriving DecidableEq, Repr

/-- LogEntry as constructed by PM2EventBus.handleLog. -/
structure LogEntry where
  id : String
  processId : Nat
  processName : String
  type : LogType
  message : String
  timestamp : Nat
deriving DecidableEq, Repr

/-- The PM2 log packet shape (interface PM2LogPacket): process pm_id, name,
namespace, the data line and the at timestamp. -/
structure PM2LogPacket where
  pm_id : Nat
  name : String
  namespc : String
  data : String
  atTime : Option Nat
deriving DecidableEq, Repr

/-- The PM2 process event packet shape (interface PM2ProcessEventPacket). -/
structure PM2ProcessEventPacket where
  event : String
  pm_id : Nat
  name : String
  pid : Nat
  atTime : Option Nat
deriving DecidableEq, Repr

/-- One process row of a PROCESS_LIST_UPDATE payload. -/
structure ProcessInfo where
  pm_id : Nat
  name : String
  status : String
  cpu : Nat
  memory : Nat
deriving DecidableEq, Repr

/-- Message type tags of the downstream wire protocol. -/
inductive WSType
| LOG_MESSAGE
| PROCESS_EVENT
| PROCESS_LIST_UPDATE
| CONNECTION_STATUS
| ERROR
deriving DecidableEq, Repr

/-- Kind-specific payloads of the downstream wire protocol. -/
inductive WSData
| log (entry : LogEntry)
| processEvent (processId : Nat) (processName : String) (event : String) (timestamp : Nat)
| processList (processes : List ProcessInfo)
| connectionStatus (connected : Bool) (pm2Connected : Bool)
| errorInfo (message : String)
deriving DecidableEq, Repr

/-- Wire envelope: type, data, timestamp. -/
structure WSMessage where
  type : WSType
  data : WSData
  timestamp : Nat
deriving DecidableEq, Repr

/-- State of PM2EventBus relevant to the ring buffer: the logBuffer array and
the maxBufferSize field (initialized to 10000 in the source). -/
structure EventBusState where
  logBuffer : List LogEntry
  maxBufferSize : Nat
deriving DecidableEq, Repr

/-- The event bus as constructed: empty buffer, capacity 10000. -/
def initialEventBus : EventBusState :=
  { logBuffer := [], maxBufferSize := 10000 }

/-- The LogEntry built at the top of handleLog: fresh uuid, packet process id
and name, stream type, packet data, and packet.at with wall-clock fallback. -/
def mkLogEntry (freshId : String) (pkt : PM2LogPacket) (ty : LogType) (now : Nat) : LogEntry :=
  { id := freshId
    processId := pkt.pm_id
    processName := pkt.name
    type := ty
    message := pkt.data
    timestamp := jsOr pkt.atTime now }

/-- The buffer update inside handleLog: push the entry, then if the length
exceeds the capacity, shift one entry off the front. -/
def bufAppend (cap : Nat) (buf : List LogEntry) (e : LogEntry) : List LogEntry :=
  let b := buf ++ [e]
  if cap < b.length then b.tail else b

/-- PM2EventBus.handleLog: build the entry, update the ring buffer, and hand
the LOG_MESSAGE to the per-process-subscriber fan-out keyed by the packet
process id. -/
def handleLog (st : EventBusState) (pkt : PM2LogPacket) (ty : LogType)
    (freshId : String) (now : Nat) : EventBusState × Nat × WSMessage :=
  let entry := mkLogEntry freshId pkt ty now
  ({ st with logBuffer := bufAppend st.maxBufferSize st.logBuffer entry },
   pkt.pm_id,
   { type := WSType.LOG_MESSAGE, data := WSData.log entry, timestamp := now })

/-- One ingestion event: the packet together with the environment-supplied
fresh id and wall clock at the moment handleLog runs. -/
structure LogIngest where
  pkt : PM2LogPacket
  ty : LogType
  freshId : String
  now : Nat
deriving DecidableEq, Repr

/-- The LogEntry an ingestion event produces. -/
def entryOf (it : LogIngest) : LogEntry :=
  mkLogEntry it.freshId it.pkt it.ty it.now

/-- Run handleLog over a whole sequence of ingestion events, keeping the
event bus state. -/
def ingestAll (st : EventBusState) (items : List LogIngest) : EventBusState :=
  items.foldl (fun s it => (handleLog s it.pkt it.ty it.freshId it.now).1) st

theorem bufAppend_drop (cap : Nat) (hcap : 0 < cap) (es : List LogEntry) (e : LogEntry) :
    bufAppend cap (es.drop (es.length - cap)) e
      = (es ++ [e]).drop ((es ++ [e]).length - cap) := by
  have hdef : bufAppend cap (es.drop (es.length - cap)) e
      = if cap < (es.drop (es.length - cap) ++ [e]).length
        then (es.drop (es.length - cap) ++ [e]).tail
        else es.drop (es.length - cap) ++ [e] := rfl
  have hL : (es ++ [e]).length = es.length + 1 := by simp
  rw [hdef, hL]
  rcases Nat.lt_or_ge es.length cap with h | h
  · have h0 : es.length - cap = 0 := by omega
    have hn : ¬ cap < (es.drop (es.length - cap) ++ [e]).length := by
      rw [h0, List.drop_zero, List.length_append, List.length_singleton]
      omega
    have h1 : es.length + 1 - cap = 0 := by omega
    rw [if_neg hn, h0, List.drop_zero, h1, List.drop_zero]
  · have hlen : (es.drop (es.length - cap)).length = cap := by
      rw [List.length_drop]
      omega
    have hif : cap < (es.drop (es.length - cap) ++ [e]).length := by
      rw [List.length_append, hlen, List.length_singleton]
      omega
    rw [if_pos hif, ← List.drop_one, List.drop_append_eq_append_drop,
      List.drop_drop, hlen]
    rw [List.drop_append_eq_append_drop]
    have h2 : 1 - cap = 0 := by omega
    have h3 : es.length + 1 - cap - es.length = 0 := by omega
    have h4 : es.length - cap + 1 = es.length + 1 - cap := by omega
    rw [h2, h3, h4, List.drop_zero]

theorem foldl_bufAppend (cap : Nat) (hcap : 0 < cap) (es : List LogEntry) :
    es.foldl (bufAppend cap) [] = es.drop (es.length - cap) := by
  induction es using List.reverseRecOn with
  | nil => simp
  | append_singleton es e ih =>
      rw [List.foldl_append, List.foldl_cons, List.foldl_nil, ih,
        bufAppend_drop cap hcap]

theorem ingestAll_buffer (st : EventBusState) (items : List LogIngest) :
    (ingestAll st items).logBuffer
        = (items.map entryOf).foldl (bufAppend st.maxBufferSize) st.logBuffer
      ∧ (ingestAll st items).maxBufferSize = st.maxBufferSize := by
  induction items generalizing st with
  | nil => simp [ingestAll]
  | cons it rest ih =>
      have step : ingestAll st (it :: rest)
          = ingestAll ((handleLog st it.pkt it.ty it.freshId it.now).1) rest := by
        simp [ingestAll]
      rw [step]
      have h := ih ((handleLog st it.pkt it.ty it.freshId it.now).1)
      simp [handleLog] at h
      simp [h.1, h.2, handleLog, entryOf]

/-- C1: for every sequence of ingestion events processed by handleLog from the
initial (empty, capacity 10000) event bus, the log buffer is exactly the
suffix of the arrival sequence of length at most 10000 (FIFO eviction of the
oldest entries), hence its length never exceeds 10000; in particular a
sequence of 10001 ingestions leaves exactly 10000 entries with the oldest
original entry dropped. -/
theorem c1_ring_buffer_fifo (items : List LogIngest) :
    (ingestAll initialEventBus items).logBuffer
        = (items.map entryOf).drop (items.length - 10000)
    ∧ (ingestAll initialEventBus items).logBuffer.length = min items.length 10000
    ∧ (items.length = 10001 →
        (ingestAll initialEventBus items).logBuffer = (items.map entryOf).drop 1
        ∧ (ingestAll initialEventBus items).logBuffer.length = 10000) := by
  have h := ingestAll_buffer initialEventBus items
  have hbuf : (ingestAll initialEventBus items).logBuffer
      = (items.map entryOf).drop (items.length - 10000) := by
    rw [h.1]
    show (items.map entryOf).foldl (bufAppend 10000) [] = _
    rw [foldl_bufAppend 10000 (by omega)]
    simp
  refine ⟨hbuf, ?_, ?_⟩
  · rw [hbuf]
    simp [List.length_drop]
    omega
  · intro hlen
    constructor
    · rw [hbuf, hlen]
    · rw [hbuf, hlen]
      simp [List.length_drop, hlen]

/-- Witness for C1 at a concrete input: a sequence of 10001 identical
ingestion events satisfies the length hypothesis of the scenario conjunct. -/
theorem c1_ring_buffer_fifo_witness :
    (List.replicate 10001
        ({ pkt := { pm_id := 1, name := "api", namespc := "default",
                    data := "line", atTime := some 5 },
           ty := LogType.out, freshId := "u", now := 9 } : LogIngest)).length = 10001
    ∧ (ingestAll initialEventBus (List.replicate 10001
        ({ pkt := { pm_id := 1, name := "api", namespc := "default",
                    data := "line", atTime := some 5 },
           ty := LogType.out, freshId := "u", now := 9 } : LogIngest))).logBuffer.length
        = 10000 := by
  refine ⟨List.length_replicate _ _, ?_⟩
  exact ((c1_ring_buffer_fifo _).2.2 (List.length_replicate _ _)).2

/-- A subscription key: a process id or the wildcard used as default. -/
inductive SubKey
| all
| pid (n : Nat)
deriving DecidableEq, Repr

/-- WebSocket ready states (the ws constants CONNECTING, OPEN, CLOSING,
CLOSED). -/
inductive ReadyState
| CONNECTING
| OPEN
| CLOSING
| CLOSED
deriving DecidableEq, Repr

/-- One downstream client session: the ExtendedWebSocket fields isAlive and
subscriptions, plus the socket attributes sendToClient consults (readyState)
and an environment fact recording whether ws.send throws on this socket. -/
structure ClientSession where
  sid : Nat
  isAlive : Bool
  subscriptions : List SubKey
  readyState : ReadyState
  sendFails : Bool
deriving DecidableEq, Repr

/-- Outcome of one sendToClient call: the message was sent, or ws.send threw
and the error was caught and logged, or the socket was not OPEN and the send
was skipped. -/
inductive SendResult
| sent
| errorLogged
| skippedNotOpen
deriving DecidableEq, Repr

/-- WebSocketManager.sendToClient: send only when readyState is OPEN, with
the send wrapped in try/catch; a throwing send is logged and swallowed, and
the session set is not touched. -/
def sendToClient (ws : ClientSession) (_msg : WSMessage) : SendResult :=
  if ws.readyState = ReadyState.OPEN then
    if ws.sendFails then SendResult.errorLogged else SendResult.sent
  else SendResult.skippedNotOpen

/-- WebSocketManager.broadcast: forEach over the clients set, one independent
sendToClient per session. -/
def broadcast (clients : List ClientSession) (msg : WSMessage) :
    List (ClientSession × SendResult) :=
  clients.map (fun c => (c, sendToClient c msg))

/-- The subscription test inside broadcastToSubscribers: the session set
contains the wildcard or the given process id. -/
def subscribedTo (c : ClientSession) (processId : Nat) : Bool :=
  c.subscriptions.contains SubKey.all || c.subscriptions.contains (SubKey.pid processId)

/-- WebSocketManager.broadcastToSubscribers: forEach over the clients set,
sending only to sessions whose subscriptions contain the wildcard or the
process id. -/
def broadcastToSubscribers (clients : List ClientSession) (processId : Nat)
    (msg : WSMessage) : List (ClientSession × SendResult) :=
  (clients.filter (fun c => subscribedTo c processId)).map
    (fun c => (c, sendToClient c msg))

/-- A fan-out delivered the message to a session: that session appears in the
outcome list with a successful send. -/
def delivered (out : List (ClientSession × SendResult)) (c : ClientSession) : Prop :=
  (c, SendResult.sent) ∈ out

instance (out : List (ClientSession × SendResult)) (c : ClientSession) :
    Decidable (delivered out c) := by
  unfold delivered
  infer_instance

theorem sendToClient_sent_iff (c : ClientSession) (msg : WSMessage) :
    sendToClient c msg = SendResult.sent
      ↔ (c.readyState = ReadyState.OPEN ∧ c.sendFails = false) := by
  unfold sendToClient
  rcases hr : c.readyState <;> rcases hf : c.sendFails <;> simp [hr, hf]

theorem delivered_broadcast_iff (clients : List ClientSession) (msg : WSMessage)
    (c : ClientSession) :
    delivered (broadcast clients msg) c
      ↔ (c ∈ clients ∧ c.readyState = ReadyState.OPEN ∧ c.sendFails = false) := by
  unfold delivered broadcast
  rw [List.mem_map]
  constructor
  · rintro ⟨x, hx, hxe⟩
    have h1 : x = c := congrArg Prod.fst hxe
    have h2 : sendToClient x msg = SendResult.sent := congrArg Prod.snd hxe
    rw [h1] at hx h2
    exact ⟨hx, (sendToClient_sent_iff c msg).1 h2⟩
  · rintro ⟨hc, ho, hf⟩
    exact ⟨c, hc, by rw [(sendToClient_sent_iff c msg).2 ⟨ho, hf⟩]⟩

theorem delivered_broadcastToSubscribers_iff (clients : List ClientSession)
    (p : Nat) (msg : WSMessage) (c : ClientSession) :
    delivered (broadcastToSubscribers clients p msg) c
      ↔ (c ∈ clients ∧ subscribedTo c p = true
          ∧ c.readyState = ReadyState.OPEN ∧ c.sendFails = false) := by
  unfold delivered broadcastToSubscribers
  rw [List.mem_map]
  constructor
  · rintro ⟨x, hx, hxe⟩
    have h1 : x = c := congrArg Prod.fst hxe
    have h2 : sendToClient x msg = SendResult.sent := congrArg Prod.snd hxe
    rw [h1] at hx h2
    rw [List.mem_filter] at hx
    exact ⟨hx.1, hx.2, (sendToClient_sent_iff c msg).1 h2⟩
  · rintro ⟨hc, hs, ho, hf⟩
    exact ⟨c, List.mem_filter.2 ⟨hc, hs⟩, by rw [(sendToClient_sent_iff c msg).2 ⟨ho, hf⟩]⟩

/-- C2: a session whose subscription set is exactly the single process id 7
is never delivered a fan-out keyed by any other process id by
broadcastToSubscribers, while broadcast delivers any message (in particular
PROCESS_LIST_UPDATE and PROCESS_EVENT envelopes) to every live session in the
set regardless of its subscriptions; moreover handleLog hands the fan-out the
packet process id, and the LOG_MESSAGE it carries holds a LogEntry with that
same process id. -/
theorem c2_subscription_filter (s : ClientSession) (clients : List ClientSession)
    (p : Nat) (msg msg2 : WSMessage) (hs : s.subscriptions = [SubKey.pid 7]) :
    (p ≠ 7 → ¬ delivered (broadcastToSubscribers clients p msg) s)
    ∧ (∀ t ∈ clients, t.readyState = ReadyState.OPEN → t.sendFails = false →
        delivered (broadcast clients msg2) t)
    ∧ (∀ st pkt ty freshId now,
        (handleLog st pkt ty freshId now).2.1 = pkt.pm_id
        ∧ (handleLog st pkt ty freshId now).2.2.data
            = WSData.log (mkLogEntry freshId pkt ty now)
        ∧ (mkLogEntry freshId pkt ty now).processId = pkt.pm_id) := by
  refine ⟨?_, ?_, ?_⟩
  · intro hp hd
    have h := (delivered_broadcastToSubscribers_iff clients p msg s).1 hd
    have hsub : subscribedTo s p = true := h.2.1
    unfold subscribedTo at hsub
    rw [hs] at hsub
    simp at hsub
    exact hp hsub
  · intro t ht ho hf
    exact (delivered_broadcast_iff clients msg2 t).2 ⟨ht, ho, hf⟩
  · intro st pkt ty freshId now
    exact ⟨rfl, rfl, rfl⟩

/-- Witness for C2 at a concrete input: a session subscribed exactly to
process 7, a fan-out keyed by process 3, and a broadcast reaching the same
session. -/
theorem c2_subscription_filter_witness :
    ¬ delivered
        (broadcastToSubscribers
          [{ sid := 1, isAlive := true, subscriptions := [SubKey.pid 7],
             readyState := ReadyState.OPEN, sendFails := false }] 3
          { type := WSType.LOG_MESSAGE,
            data := WSData.errorInfo "x", timestamp := 0 })
        { sid := 1, isAlive := true, subscriptions := [SubKey.pid 7],
          readyState := ReadyState.OPEN, sendFails := false }
    ∧ delivered
        (broadcast
          [{ sid := 1, isAlive := true, subscriptions := [SubKey.pid 7],
             readyState := ReadyState.OPEN, sendFails := false }]
          { type := WSType.PROCESS_LIST_UPDATE,
            data := WSData.processList [], timestamp := 0 })
        { sid := 1, isAlive := true, subscriptions := [SubKey.pid 7],
          readyState := ReadyState.OPEN, sendFails := false } := by
  have h := c2_subscription_filter
    { sid := 1, isAlive := true, subscriptions := [SubKey.pid 7],
      readyState := ReadyState.OPEN, sendFails := false }
    [{ sid := 1, isAlive := true, subscriptions := [SubKey.pid 7],
       readyState := ReadyState.OPEN, sendFails := false }] 3
    { type := WSType.LOG_MESSAGE, data := WSData.errorInfo "x", timestamp := 0 }
    { type := WSType.PROCESS_LIST_UPDATE, data := WSData.processList [], timestamp := 0 }
    rfl
  exact ⟨h.1 (by decide), h.2.1 _ (by simp) rfl rfl⟩

/-- Manager state: the clients set owned by WebSocketManager. -/
structure WSManagerState where
  clients : List ClientSession
deriving DecidableEq, Repr

/-- WebSocketManager.broadcast as a transformer on the manager state: the
fan-out loop calls sendToClient per session and never mutates the clients
set (sendToClient catches a throwing send and only logs it; no delete
happens on the send path). -/
def broadcastM (st : WSManagerState) (msg : WSMessage) :
    WSManagerState × List (ClientSession × SendResult) :=
  (st, broadcast st.clients msg)

/-- C4 counterexample: with one failing-socket session and one healthy
session, broadcast logs the failure and still delivers to the healthy
session, but the failing session is NOT removed from the session set,
contradicting the claim that a send failure removes that session. -/
theorem c4_counterexample :
    (broadcastM
        { clients := [
            { sid := 1, isAlive := true, subscriptions := [SubKey.all],
              readyState := ReadyState.OPEN, sendFails := true },
            { sid := 2, isAlive := true, subscriptions := [SubKey.all],
              readyState := ReadyState.OPEN, sendFails := false }] }
        { type := WSType.PROCESS_EVENT,
          data := WSData.processEvent 5 "api" "exit" 0, timestamp := 0 }).2
      = [({ sid := 1, isAlive := true, subscriptions := [SubKey.all],
            readyState := ReadyState.OPEN, sendFails := true }, SendResult.errorLogged),
         ({ sid := 2, isAlive := true, subscriptions := [SubKey.all],
            readyState := ReadyState.OPEN, sendFails := false }, SendResult.sent)]
    ∧ ({ sid := 1, isAlive := true, subscriptions := [SubKey.all],
         readyState := ReadyState.OPEN, sendFails := true } : ClientSession)
        ∈ (broadcastM
            { clients := [
                { sid := 1, isAlive := true, subscriptions := [SubKey.all],
                  readyState := ReadyState.OPEN, sendFails := true },
                { sid := 2, isAlive := true, subscriptions := [SubKey.all],
                  readyState := ReadyState.OPEN, sendFails := false }] }
            { type := WSType.PROCESS_EVENT,
              data := WSData.processEvent 5 "api" "exit" 0, timestamp := 0 }).1.clients := by
  constructor
  · rfl
  · simp [broadcastM]

/-- C4 (amended): a send failure on one session is isolated: ws.send throwing
is caught and logged (errorLogged, never an uncaught exception), every other
live session is still delivered, and the fan-out propagates no error to the
caller; however the failing session is left in the session set by the send
path (removal happens only through the close and error socket handlers or
the heartbeat sweep). -/
theorem c4_send_failure_isolated (st : WSManagerState) (msg : WSMessage) :
    (broadcastM st msg).1 = st
    ∧ (∀ t ∈ st.clients, t.readyState = ReadyState.OPEN → t.sendFails = false →
        delivered (broadcastM st msg).2 t)
    ∧ (∀ t ∈ st.clients, t.readyState = ReadyState.OPEN → t.sendFails = true →
        (t, SendResult.errorLogged) ∈ (broadcastM st msg).2) := by
  refine ⟨rfl, ?_, ?_⟩
  · intro t ht ho hf
    exact (delivered_broadcast_iff st.clients msg t).2 ⟨ht, ho, hf⟩
  · intro t ht ho hf
    unfold broadcastM broadcast
    rw [List.mem_map]
    refine ⟨t, ht, ?_⟩
    unfold sendToClient
    rw [ho, hf]
    simp

/-- Witness for C4 at a concrete input: a two-session set where the first
send fails and the second succeeds. -/
theorem c4_send_failure_isolated_witness :
    delivered
      (broadcastM
        { clients := [
            { sid := 1, isAlive := true, subscriptions := [SubKey.all],
              readyState := ReadyState.OPEN, sendFails := true },
            { sid := 2, isAlive := true, subscriptions := [SubKey.all],
              readyState := ReadyState.OPEN, sendFails := false }] }
        { type := WSType.CONNECTION_STATUS,
          data := WSData.connectionStatus true true, timestamp := 0 }).2
      { sid := 2, isAlive := true, subscriptions := [SubKey.all],
        readyState := ReadyState.OPEN, sendFails := false }
    ∧ ({ sid := 1, isAlive := true, subscriptions := [SubKey.all],
         readyState := ReadyState.OPEN, sendFails := true }, SendResult.errorLogged)
        ∈ (broadcastM
            { clients := [
                { sid := 1, isAlive := true, subscriptions := [SubKey.all],
                  readyState := ReadyState.OPEN, sendFails := true },
                { sid := 2, isAlive := true, subscriptions := [SubKey.all],
                  readyState := ReadyState.OPEN, sendFails := false }] }
            { type := WSType.CONNECTION_STATUS,
              data := WSData.connectionStatus true true, timestamp := 0 }).2 := by
  have h := c4_send_failure_isolated
    { clients := [
        { sid := 1, isAlive := true, subscriptions := [SubKey.all],
          readyState := ReadyState.OPEN, sendFails := true },
        { sid := 2, isAlive := true, subscriptions := [SubKey.all],
          readyState := ReadyState.OPEN, sendFails := false }] }
    { type := WSType.CONNECTION_STATUS,
      data := WSData.connectionStatus true true, timestamp := 0 }
  exact ⟨h.2.1 _ (by simp) rfl rfl, h.2.2 _ (by simp) rfl rfl⟩

/-- PM2Client instance fields that the connection logic mutates. -/
structure PM2ClientState where
  connected : Bool
  connecting : Bool
  reconnectAttempts : Nat
deriving DecidableEq, Repr

/-- The configured reconnect ceiling (maxReconnectAttempts field). -/
def maxReconnectAttempts : Nat := 10

/-- The base reconnect delay in ms (reconnectDelay field). -/
def reconnectDelay : Nat := 1000

/-- The reconnect delay cap in ms (maxReconnectDelay field). -/
def maxReconnectDelay : Nat := 30000

/-- The freshly constructed client: not connected, not connecting, zero
reconnect attempts. -/
def initialClient : PM2ClientState :=
  { connected := false, connecting := false, reconnectAttempts := 0 }

/-- How the promise returned by connect resolves: already resolved at return
(the early-return paths for connected and connecting), or pending until the
pm2.connect callback fires. -/
inductive ConnectReturn
| resolvedNow
| pending
deriving DecidableEq, Repr

/-- PM2Client.connect: if connected, return at once; if connecting, return at
once (the early return does not wait for the in-flight attempt); otherwise
set connecting and start a pm2.connect attempt whose callback resolves the
returned promise. -/
def connect (st : PM2ClientState) : PM2ClientState × ConnectReturn :=
  if st.connected then (st, ConnectReturn.resolvedNow)
  else if st.connecting then (st, ConnectReturn.resolvedNow)
  else ({ st with connecting := true }, ConnectReturn.pending)

/-- The pm2.connect callback: clear connecting; on error reject, on success
set connected and reset the attempt counter. -/
def connectCallback (st : PM2ClientState) (err : Bool) : PM2ClientState :=
  let st1 := { st with connecting := false }
  if err then st1
  else { st1 with connected := true, reconnectAttempts := 0 }

/-- PM2Client.ensureConnected: if not connected, await connect. -/
def ensureConnected (st : PM2ClientState) : PM2ClientState × ConnectReturn :=
  if st.connected then (st, ConnectReturn.resolvedNow) else connect st

/-- External events driving the supervisor: a call to connect, or the
in-flight pm2.connect callback firing with or without an error. -/
inductive ClientEvent
| callConnect
| callbackResult (err : Bool)
deriving DecidableEq, Repr

/-- Supervisor state with instrumentation: the client fields plus the number
of pm2.connect attempts whose callback has not yet fired. -/
structure SupervisorState where
  client : PM2ClientState
  inFlight : Nat
deriving DecidableEq, Repr

/-- One supervisor step: a connect call starts an attempt exactly when it
returns pending; a callback can fire only when an attempt is outstanding. -/
def supervisorStep (s : SupervisorState) (ev : ClientEvent) : SupervisorState :=
  match ev with
  | ClientEvent.callConnect =>
      match connect s.client with
      | (c, ConnectReturn.pending) => { client := c, inFlight := s.inFlight + 1 }
      | (c, ConnectReturn.resolvedNow) => { client := c, inFlight := s.inFlight }
  | ClientEvent.callbackResult err =>
      if s.inFlight = 0 then s
      else { client := connectCallback s.client err, inFlight := s.inFlight - 1 }

/-- Run the supervisor from the freshly constructed client. -/
def supervisorRun (evs : List ClientEvent) : SupervisorState :=
  evs.foldl supervisorStep { client := initialClient, inFlight := 0 }

theorem supervisor_invariant (evs : List ClientEvent) :
    (supervisorRun evs).inFlight
      = (if (supervisorRun evs).client.connecting then 1 else 0) := by
  have main : ∀ (l : List ClientEvent) (s : SupervisorState),
      s.inFlight = (if s.client.connecting then 1 else 0) →
      (l.foldl supervisorStep s).inFlight
        = (if (l.foldl supervisorStep s).client.connecting then 1 else 0) := by
    intro l
    induction l with
    | nil => intro s hs; simpa using hs
    | cons ev rest ih =>
        intro s hs
        rw [List.foldl_cons]
        apply ih
        rcases ev with _ | err
        · rcases hc : s.client.connected with _ | _
            <;> rcases hg : s.client.connecting with _ | _
            <;> simp [supervisorStep, connect, hc, hg, hs] at hs ⊢
        · rcases hg : s.client.connecting with _ | _
            <;> rcases err with _ | _
            <;> simp [supervisorStep, connectCallback, hg, hs] at hs ⊢
  exact main evs { client := initialClient, inFlight := 0 } (by simp [initialClient])

/-- C3 counterexample: from the initial state one connect call reaches the
Connecting state; there ensureConnected returns an already-resolved promise
(it does not wait for the in-flight attempt) while the client is still not
connected, contradicting the claim that a connect request issued while
Connecting returns only once the in-flight attempt resolves and that a
successful ensureConnected return implies Connected. -/
theorem c3_counterexample :
    (connect initialClient).1.connecting = true
    ∧ (connect initialClient).1.connected = false
    ∧ (ensureConnected (connect initialClient).1).2 = ConnectReturn.resolvedNow
    ∧ (ensureConnected (connect initialClient).1).1.connected = false := by
  decide

/-- C3 (amended): at most one connection attempt is ever in flight (for any
event sequence from the initial state the in-flight count is bounded by
one), and a connect call made while the supervisor is Connecting is a pure
no-op on the client state that returns an already-resolved promise without
waiting for the in-flight attempt — hence ensureConnected can return while
the supervisor is still Connecting rather than Connected. -/
theorem c3_single_attempt (evs : List ClientEvent) :
    (supervisorRun evs).inFlight ≤ 1
    ∧ ((supervisorRun evs).client.connecting = true →
        connect (supervisorRun evs).client
          = ((supervisorRun evs).client, ConnectReturn.resolvedNow)
        ∧ ensureConnected (supervisorRun evs).client
          = ((supervisorRun evs).client, ConnectReturn.resolvedNow)) := by
  constructor
  · rw [supervisor_invariant evs]
    split <;> omega
  · intro hg
    have hcon : connect (supervisorRun evs).client
        = ((supervisorRun evs).client, ConnectReturn.resolvedNow) := by
      unfold connect
      rw [hg]
      split <;> simp
    refine ⟨hcon, ?_⟩
    unfold ensureConnected
    split <;> simp [hcon]

/-- Witness for C3 (amended) at a concrete input: after a single connect call
the supervisor is Connecting, and the conclusions hold there. -/
theorem c3_single_attempt_witness :
    (supervisorRun [ClientEvent.callConnect]).inFlight ≤ 1
    ∧ (supervisorRun [ClientEvent.callConnect]).client.connecting = true
    ∧ connect (supervisorRun [ClientEvent.callConnect]).client
        = ((supervisorRun [ClientEvent.callConnect]).client, ConnectReturn.resolvedNow) := by
  have h := c3_single_attempt [ClientEvent.callConnect]
  exact ⟨h.1, by decide, (h.2 (by decide)).1⟩

/-- The error class thrown by the client on connection failures. -/
structure ConnectionError where
  message : String
deriving DecidableEq, Repr

/-- The delay formula inside reconnect for a given value of the attempt
counter at entry: reconnectDelay times 2 to the (incremented counter minus
one), capped at maxReconnectDelay. -/
def backoffDelay (attempt : Nat) : Nat :=
  min (reconnectDelay * 2 ^ attempt) maxReconnectDelay

/-- PM2Client.reconnect up to its suspension points: throw ConnectionError
once the attempt counter has reached the ceiling; otherwise increment the
counter, compute the backoff delay from the incremented counter minus one,
and tear down the existing connection (disconnect leaves connected false)
before sleeping for the delay and calling connect. -/
def reconnect (st : PM2ClientState) : Except ConnectionError (PM2ClientState × Nat) :=
  if maxReconnectAttempts ≤ st.reconnectAttempts then
    Except.error { message := "Failed to reconnect after 10 attempts" }
  else
    let st1 := { st with reconnectAttempts := st.reconnectAttempts + 1 }
    let delay := min (reconnectDelay * 2 ^ (st1.reconnectAttempts - 1)) maxReconnectDelay
    Except.ok ({ st1 with connected := false }, delay)

/-- C6: below the ceiling, reconnect computes exactly
min(baseDelay * 2 ^ attempt, maxDelay) for the entry value of the attempt
counter and increments the counter; the delay is monotonically non-decreasing
in the number of consecutive failures; a successful connection callback
resets the counter to zero so the next delay is the base delay; and once the
counter has reached the ceiling of 10, reconnect fails with ConnectionError. -/
theorem c6_backoff (st st2 : PM2ClientState) (a b : Nat) :
    (st.reconnectAttempts < maxReconnectAttempts →
      reconnect st = Except.ok
        ({ st with reconnectAttempts := st.reconnectAttempts + 1, connected := false },
         backoffDelay st.reconnectAttempts))
    ∧ (a ≤ b → backoffDelay a ≤ backoffDelay b)
    ∧ (connectCallback st2 false).reconnectAttempts = 0
    ∧ backoffDelay 0 = reconnectDelay
    ∧ (maxReconnectAttempts ≤ st.reconnectAttempts →
        reconnect st
          = Except.error { message := "Failed to reconnect after 10 attempts" }) := by
  refine ⟨?_, ?_, ?_, ?_, ?_⟩
  · intro hlt
    unfold reconnect
    rw [if_neg (by omega)]
    simp [backoffDelay]
  · intro hab
    unfold backoffDelay
    exact min_le_min
      (Nat.mul_le_mul_left _ (Nat.pow_le_pow_right (by omega) hab))
      (Nat.le_refl _)
  · simp [connectCallback]
  · unfold backoffDelay reconnectDelay maxReconnectDelay
    simp
  · intro hge
    unfold reconnect
    rw [if_pos hge]

/-- Witness for C6 at a concrete input: a client with three recorded
failures, attempt indices 2 and 5, and a client at the ceiling. -/
theorem c6_backoff_witness :
    reconnect { connected := false, connecting := false, reconnectAttempts := 3 }
      = Except.ok
          ({ connected := false, connecting := false, reconnectAttempts := 4 },
           backoffDelay 3)
    ∧ backoffDelay 2 ≤ backoffDelay 5
    ∧ reconnect { connected := false, connecting := false, reconnectAttempts := 10 }
        = Except.error { message := "Failed to reconnect after 10 attempts" } := by
  refine ⟨?_, ?_, ?_⟩
  · exact (c6_backoff { connected := false, connecting := false, reconnectAttempts := 3 }
      initialClient 0 0).1 (by decide)
  · exact (c6_backoff initialClient initialClient 2 5).2.1 (by omega)
  · exact (c6_backoff { connected := false, connecting := false, reconnectAttempts := 10 }
      initialClient 0 0).2.2.2.2 (by decide)

/-- Side effects the process:event handler performs, in order: a global
wsManager.broadcast of a message, or a call to broadcastProcessList (the
out-of-band pm2API.list plus global PROCESS_LIST_UPDATE broadcast that
bypasses the regular 2s polling cadence). -/
inductive BusAction
| broadcastAll (msg : WSMessage)
| refreshProcessList
deriving DecidableEq, Repr

/-- The PROCESS_EVENT envelope built inside the process:event handler. -/
def processEventMsg (pkt : PM2ProcessEventPacket) (now : Nat) : WSMessage :=
  { type := WSType.PROCESS_EVENT
    data := WSData.processEvent pkt.pm_id pkt.name pkt.event (jsOr pkt.atTime now)
    timestamp := now }

/-- The process:event listener registered by setupProcessEventHandlers: it
broadcasts the PROCESS_EVENT globally and then always calls
broadcastProcessList, with no debounce state consulted or updated. -/
def handleProcessEvent (pkt : PM2ProcessEventPacket) (now : Nat) : List BusAction :=
  [BusAction.broadcastAll (processEventMsg pkt now), BusAction.refreshProcessList]

/-- Sequential handling of a burst of lifecycle events. -/
def processBurst : List (PM2ProcessEventPacket × Nat) → List BusAction
| [] => []
| pn :: rest => handleProcessEvent pn.1 pn.2 ++ processBurst rest

/-- Number of out-of-band process-list refreshes a sequence of bus actions
performs. -/
def refreshCount (acts : List BusAction) : Nat :=
  acts.count BusAction.refreshProcessList

/-- C5 counterexample: a burst of two lifecycle events triggers two
out-of-band process-list refreshes — the second trigger is not a no-op —
contradicting the claim that a refresh already scheduled within a debounce
window makes further burst triggers no-ops. -/
theorem c5_counterexample :
    refreshCount (processBurst
      [({ event := "online", pm_id := 1, name := "api", pid := 100, atTime := some 5 }, 10),
       ({ event := "exit", pm_id := 2, name := "web", pid := 101, atTime := some 6 }, 11)]) = 2
    ∧ ¬ (refreshCount (processBurst
      [({ event := "online", pm_id := 1, name := "api", pid := 100, atTime := some 5 }, 10),
       ({ event := "exit", pm_id := 2, name := "web", pid := 101, atTime := some 6 }, 11)]) ≤ 1) := by
  decide

/-- C5 (amended): every lifecycle event observed from the daemon bus makes
the Event Translator broadcast a PROCESS_EVENT globally (delivered to every
live session regardless of subscriptions) and immediately trigger an
out-of-band refresh of the full process list; there is no debounce, so a
burst of lifecycle events triggers exactly one refresh per event. -/
theorem c5_lifecycle_refresh (pkt : PM2ProcessEventPacket) (now : Nat)
    (pkts : List (PM2ProcessEventPacket × Nat)) (clients : List ClientSession) :
    BusAction.refreshProcessList ∈ handleProcessEvent pkt now
    ∧ BusAction.broadcastAll (processEventMsg pkt now) ∈ handleProcessEvent pkt now
    ∧ refreshCount (processBurst pkts) = pkts.length
    ∧ (∀ t ∈ clients, t.readyState = ReadyState.OPEN → t.sendFails = false →
        delivered (broadcast clients (processEventMsg pkt now)) t) := by
  refine ⟨by simp [handleProcessEvent], by simp [handleProcessEvent], ?_, ?_⟩
  · induction pkts with
    | nil => rfl
    | cons pn rest ih =>
        have h2 := ih
        unfold refreshCount at h2 ⊢
        have hstep : processBurst (pn :: rest)
            = handleProcessEvent pn.1 pn.2 ++ processBurst rest := rfl
        rw [hstep, List.count_append, h2]
        simp [handleProcessEvent]
        omega
  · intro t ht ho hf
    exact (delivered_broadcast_iff clients (processEventMsg pkt now) t).2 ⟨ht, ho, hf⟩

/-- Witness for C5 (amended) at a concrete input: one lifecycle packet, a
two-event burst, and a single live session. -/
theorem c5_lifecycle_refresh_witness :
    refreshCount (processBurst
      [({ event := "restart", pm_id := 3, name := "db", pid := 7, atTime := none }, 1),
       ({ event := "stopped", pm_id := 3, name := "db", pid := 7, atTime := none }, 2)]) = 2
    ∧ delivered
        (broadcast
          [{ sid := 9, isAlive := true, subscriptions := [SubKey.all],
             readyState := ReadyState.OPEN, sendFails := false }]
          (processEventMsg
            { event := "restart", pm_id := 3, name := "db", pid := 7, atTime := none } 1))
        { sid := 9, isAlive := true, subscriptions := [SubKey.all],
          readyState := ReadyState.OPEN, sendFails := false } := by
  have h := c5_lifecycle_refresh
    { event := "restart", pm_id := 3, name := "db", pid := 7, atTime := none } 1
    [({ event := "restart", pm_id := 3, name := "db", pid := 7, atTime := none }, 1),
     ({ event := "stopped", pm_id := 3, name := "db", pid := 7, atTime := none }, 2)]
    [{ sid := 9, isAlive := true, subscriptions := [SubKey.all],
       readyState := ReadyState.OPEN, sendFails := false }]
  exact ⟨h.2.2.1, h.2.2.2 _ (by simp) rfl rfl⟩

/-- JS Array.prototype.slice applied with the negated limit, as in the source
return logs.slice(-limit): for a positive limit it keeps the last limit
elements; for limit zero the argument -0 equals 0 and slice(0) returns the
whole array. -/
def jsSliceLast (l : List LogEntry) (limit : Nat) : List LogEntry :=
  if limit = 0 then l else l.drop (l.length - limit)

/-- PM2EventBus.getRecentLogs: start from the logBuffer, filter by process id
when one is given, and return the slice of the last limit entries. A pure
read: no field of the state is written. -/
def getRecentLogs (st : EventBusState) (processId : Option Nat) (limit : Nat) :
    List LogEntry :=
  let logs := match processId with
    | some p => st.logBuffer.filter (fun log => log.processId == p)
    | none => st.logBuffer
  jsSliceLast logs limit

/-- C7 counterexample: with a buffer holding one entry for process 7,
getRecentLogs for process 7 with limit 0 returns that entry (slice(-0) is
slice(0), the whole array), so the result is not bounded by the limit,
contradicting the claim for every limit. -/
theorem c7_counterexample :
    (getRecentLogs
        { logBuffer := [{ id := "a", processId := 7, processName := "api",
                          type := LogType.out, message := "m", timestamp := 1 }],
          maxBufferSize := 10000 } (some 7) 0).length = 1
    ∧ ¬ ((getRecentLogs
        { logBuffer := [{ id := "a", processId := 7, processName := "api",
                          type := LogType.out, message := "m", timestamp := 1 }],
          maxBufferSize := 10000 } (some 7) 0).length ≤ 0) := by
  decide

/-- C7 (amended): for every buffer state, every process id and every positive
limit, getRecentLogs is a pure read returning at most limit entries: a suffix
of the filtered buffer (hence the most-recent matching entries in arrival
order and a sublist of the buffer itself), containing no entry whose process
id differs from the requested one; the same bound and suffix property hold
with no process id given. With limit zero the source returns all matching
entries instead. -/
theorem c7_get_recent_logs (st : EventBusState) (p : Nat) (limit : Nat)
    (hl : 1 ≤ limit) :
    (getRecentLogs st (some p) limit).length ≤ limit
    ∧ List.IsSuffix (getRecentLogs st (some p) limit)
        (st.logBuffer.filter (fun log => log.processId == p))
    ∧ List.Sublist (getRecentLogs st (some p) limit) st.logBuffer
    ∧ (∀ e ∈ getRecentLogs st (some p) limit, e.processId = p)
    ∧ (getRecentLogs st none limit).length ≤ limit
    ∧ List.IsSuffix (getRecentLogs st none limit) st.logBuffer := by
  have hz : limit ≠ 0 := by omega
  have hsome : getRecentLogs st (some p) limit
      = (st.logBuffer.filter (fun log => log.processId == p)).drop
          ((st.logBuffer.filter (fun log => log.processId == p)).length - limit) := by
    unfold getRecentLogs jsSliceLast
    rw [if_neg hz]
  have hnone : getRecentLogs st none limit
      = st.logBuffer.drop (st.logBuffer.length - limit) := by
    unfold getRecentLogs jsSliceLast
    rw [if_neg hz]
  refine ⟨?_, ?_, ?_, ?_, ?_, ?_⟩
  · rw [hsome, List.length_drop]
    omega
  · rw [hsome]
    exact List.drop_suffix _ _
  · rw [hsome]
    exact ((List.drop_suffix _ _).sublist).trans (List.filter_sublist _)
  · intro e he
    rw [hsome] at he
    have hmem : e ∈ st.logBuffer.filter (fun log => log.processId == p) :=
      ((List.drop_suffix _ _).sublist).mem he
    have := (List.mem_filter.1 hmem).2
    simpa using this
  · rw [hnone, List.length_drop]
    omega
  · rw [hnone]
    exact List.drop_suffix _ _

/-- Witness for C7 (amended) at a concrete input: a two-entry buffer and
limit 1. -/
theorem c7_get_recent_logs_witness :
    (getRecentLogs
        { logBuffer := [
            { id := "a", processId := 7, processName := "api",
              type := LogType.out, message := "m1", timestamp := 1 },
            { id := "b", processId := 8, processName := "web",
              type := LogType.err, message := "m2", timestamp := 2 }],
          maxBufferSize := 10000 } (some 7) 1).length ≤ 1
    ∧ (∀ e ∈ getRecentLogs
        { logBuffer := [
            { id := "a", processId := 7, processName := "api",
              type := LogType.out, message := "m1", timestamp := 1 },
            { id := "b", processId := 8, processName := "web",
              type := LogType.err, message := "m2", timestamp := 2 }],
          maxBufferSize := 10000 } (some 7) 1, e.processId = 7) := by
  have h := c7_get_recent_logs
    { logBuffer := [
        { id := "a", processId := 7, processName := "api",
          type := LogType.out, message := "m1", timestamp := 1 },
        { id := "b", processId := 8, processName := "web",
          type := LogType.err, message := "m2", timestamp := 2 }],
      maxBufferSize := 10000 } 7 1 (by omega)
  exact ⟨h.1, h.2.2.2.1⟩

/-- WebSocketManager.checkHeartbeat: for each session, if its liveness flag
is down, terminate and delete it; otherwise flip the flag down and ping it.
Returns the surviving session list and the list of pinged sessions. -/
def checkHeartbeat : List ClientSession → List ClientSession × List ClientSession
| [] => ([], [])
| ws :: rest =>
    if ws.isAlive = false then checkHeartbeat rest
    else
      let r := checkHeartbeat rest
      ({ ws with isAlive := false } :: r.1, ws :: r.2)

/-- The pong listener installed in handleConnection: the session that ponged
has its liveness flag flipped back up. -/
def handlePong (clients : List ClientSession) (sid : Nat) : List ClientSession :=
  clients.map (fun c => if c.sid = sid then { c with isAlive := true } else c)

/-- All pong events arriving between two heartbeat ticks, one per responsive
session id. -/
def applyPongs (clients : List ClientSession) (responders : List Nat) : List ClientSession :=
  responders.foldl handlePong clients

/-- One heartbeat period: the tick sweep followed by the pongs of the
sessions whose sockets still respond. -/
def heartbeatRound (clients : List ClientSession) (responders : List Nat) :
    List ClientSession :=
  applyPongs (checkHeartbeat clients).1 responders

theorem checkHeartbeat_eq (clients : List ClientSession) :
    (checkHeartbeat clients).1
        = (clients.filter (fun ws => ws.isAlive)).map (fun ws => { ws with isAlive := false })
    ∧ (checkHeartbeat clients).2 = clients.filter (fun ws => ws.isAlive) := by
  induction clients with
  | nil => exact ⟨rfl, rfl⟩
  | cons ws rest ih =>
      rcases ha : ws.isAlive with _ | _
      · have hstep : checkHeartbeat (ws :: rest) = checkHeartbeat rest := by
          simp only [checkHeartbeat]
          rw [ha]
          simp
        rw [hstep]
        simp [List.filter_cons, ha, ih.1, ih.2]
      · have hstep : checkHeartbeat (ws :: rest)
            = ({ ws with isAlive := false } :: (checkHeartbeat rest).1,
               ws :: (checkHeartbeat rest).2) := by
          simp only [checkHeartbeat]
          rw [ha]
          simp
        rw [hstep]
        simp [List.filter_cons, ha, ih.1, ih.2]

theorem mem_checkHeartbeat_not_alive (clients : List ClientSession)
    (c : ClientSession) (hc : c ∈ (checkHeartbeat clients).1) :
    c.isAlive = false := by
  rw [(checkHeartbeat_eq clients).1] at hc
  rcases List.mem_map.1 hc with ⟨d, _, hd⟩
  rw [← hd]

theorem mem_applyPongs (rs : List Nat) (cs : List ClientSession)
    (c : ClientSession) (hc : c ∈ applyPongs cs rs) :
    ∃ c0 ∈ cs, c0.sid = c.sid ∧ (c.isAlive = true → (c0.isAlive = true ∨ c0.sid ∈ rs)) := by
  induction rs generalizing cs with
  | nil =>
      exact ⟨c, hc, rfl, fun h => Or.inl h⟩
  | cons r rest ih =>
      have hc2 : c ∈ applyPongs (handlePong cs r) rest := hc
      rcases ih (handlePong cs r) hc2 with ⟨c1, hc1, hsid1, halive1⟩
      rcases List.mem_map.1 hc1 with ⟨c0, hc0, hup⟩
      by_cases hr : c0.sid = r
      · rw [if_pos hr] at hup
        refine ⟨c0, hc0, ?_, ?_⟩
        · rw [← hsid1, ← hup]
        · intro _
          right
          rw [hr]
          exact List.mem_cons_self r rest
      · rw [if_neg hr] at hup
        refine ⟨c0, hc0, by rw [← hsid1, ← hup], ?_⟩
        intro halive
        rcases halive1 halive with h | h
        · left
          rw [hup]
          exact h
        · right
          rw [hup]
          exact List.mem_cons_of_mem r h

/-- C8: one heartbeat tick keeps exactly the sessions whose liveness flag was
up, flips each kept flag down and pings each kept session, removing every
session whose flag was still down; a pong flips the flag back up; hence
every session surviving two consecutive rounds must have ponged after the
first tick, so a broken socket that never pongs is removed; and a broadcast
afterwards delivers to exactly the remaining live sessions, with the fan-out
total (no error reaches the caller). -/
theorem c8_heartbeat (clients : List ClientSession) (r1 r2 : List Nat)
    (msg : WSMessage) :
    (checkHeartbeat clients).1
        = (clients.filter (fun ws => ws.isAlive)).map (fun ws => { ws with isAlive := false })
    ∧ (checkHeartbeat clients).2 = clients.filter (fun ws => ws.isAlive)
    ∧ (∀ sid c, c ∈ clients → c.sid = sid →
        { c with isAlive := true } ∈ handlePong clients sid)
    ∧ (∀ c ∈ heartbeatRound (heartbeatRound clients r1) r2, c.sid ∈ r1)
    ∧ (∀ t, delivered (broadcast clients msg) t
        ↔ (t ∈ clients ∧ t.readyState = ReadyState.OPEN ∧ t.sendFails = false)) := by
  refine ⟨(checkHeartbeat_eq clients).1, (checkHeartbeat_eq clients).2, ?_, ?_, ?_⟩
  · intro sid c hc hsid
    unfold handlePong
    rcases List.mem_map.1 (List.mem_map_of_mem
      (fun c => if c.sid = sid then { c with isAlive := true } else c) hc)
      with ⟨d, _, _⟩
    exact List.mem_map.2 ⟨c, hc, by rw [if_pos hsid]⟩
  · intro c hc
    unfold heartbeatRound at hc
    rcases mem_applyPongs r2 _ c hc with ⟨c1, hc1, hsid1, _⟩
    have hdead1 : c1.isAlive = false := mem_checkHeartbeat_not_alive _ c1 hc1
    rw [(checkHeartbeat_eq _).1] at hc1
    rcases List.mem_map.1 hc1 with ⟨d, hd, hdef⟩
    have hdmem : d ∈ heartbeatRound clients r1 := (List.mem_filter.1 hd).1
    have hdalive : d.isAlive = true := by
      have := (List.mem_filter.1 hd).2
      simpa using this
    unfold heartbeatRound at hdmem
    rcases mem_applyPongs r1 _ d hdmem with ⟨c0, hc0, hsid0, halive0⟩
    have hdead0 : c0.isAlive = false := mem_checkHeartbeat_not_alive _ c0 hc0
    rcases halive0 hdalive with h | h
    · rw [hdead0] at h
      cases h
    · have hsd : d.sid = c.sid := by
        rw [← hsid1, ← hdef]
      rw [← hsd, ← hsid0]
      exact h
  · intro t
    exact delivered_broadcast_iff clients msg t

/-- Witness for C8 at a concrete input: a broken session (sid 1, never
pongs) and a healthy session (sid 2) across two heartbeat rounds with
responder set containing only sid 2, followed by a broadcast to the
remaining session. -/
theorem c8_heartbeat_witness :
    ({ sid := 1, isAlive := true, subscriptions := [SubKey.all],
       readyState := ReadyState.OPEN, sendFails := true } : ClientSession).isAlive = true
    ∧ ({ sid := 2, isAlive := true, subscriptions := [SubKey.all],
         readyState := ReadyState.OPEN, sendFails := false } : ClientSession).sid ∈ ([2] : List Nat)
    ∧ delivered
        (broadcast
          [{ sid := 2, isAlive := true, subscriptions := [SubKey.all],
             readyState := ReadyState.OPEN, sendFails := false }]
          { type := WSType.PROCESS_LIST_UPDATE,
            data := WSData.processList [], timestamp := 0 })
        { sid := 2, isAlive := true, subscriptions := [SubKey.all],
          readyState := ReadyState.OPEN, sendFails := false } := by
  have h := c8_heartbeat
    [{ sid := 1, isAlive := true, subscriptions := [SubKey.all],
       readyState := ReadyState.OPEN, sendFails := true },
     { sid := 2, isAlive := true, subscriptions := [SubKey.all],
       readyState := ReadyState.OPEN, sendFails := false }] [2] [2]
    { type := WSType.PROCESS_LIST_UPDATE, data := WSData.processList [], timestamp := 0 }
  refine ⟨rfl, ?_, ?_⟩
  · exact h.2.2.2.1
      { sid := 2, isAlive := true, subscriptions := [SubKey.all],
        readyState := ReadyState.OPEN, sendFails := false } (by decide)
  · exact (c8_heartbeat
      [{ sid := 2, isAlive := true, subscriptions := [SubKey.all],
         readyState := ReadyState.OPEN, sendFails := false }] [2] [2]
      { type := WSType.PROCESS_LIST_UPDATE,
        data := WSData.processList [], timestamp := 0 }).2.2.2.2
      { sid := 2, isAlive := true, subscriptions := [SubKey.all],
        readyState := ReadyState.OPEN, sendFails := false }
      |>.2 ⟨by simp, rfl, rfl⟩

/-- Frontend process store state (useProcessStore). -/
structure ProcessStoreState where
  processes : List ProcessInfo
  selectedProcessId : Option Nat
  isLoading : Bool
  error : Option String
deriving DecidableEq, Repr

/-- useProcessStore.setProcesses: a full replace of the process list, also
clearing the loading flag and the error; no merge with the previous list. -/
def setProcesses (st : ProcessStoreState) (ps : List ProcessInfo) : ProcessStoreState :=
  { st with processes := ps, isLoading := false, error := none }

/-- Frontend log store state (useLogStore fields that addLog touches). -/
structure LogStoreState where
  logs : List LogEntry
  isPaused : Bool
  maxLogs : Nat
deriving DecidableEq, Repr

/-- useLogStore.addLog: ignore while paused; otherwise append and keep only
the last maxLogs entries. -/
def addLog (st : LogStoreState) (entry : LogEntry) : LogStoreState :=
  if st.isPaused then st
  else
    let newLogs := st.logs ++ [entry]
    if st.maxLogs < newLogs.length then { st with logs := jsSliceLast newLogs st.maxLogs }
    else { st with logs := newLogs }

/-- Local client state the useWebSocket message dispatch updates. -/
structure ClientState where
  processStore : ProcessStoreState
  logStore : LogStoreState
deriving DecidableEq, Repr

/-- useWebSocket.handleMessage: dispatch on the envelope type;
PROCESS_LIST_UPDATE replaces the process list via setProcesses, LOG_MESSAGE
appends via addLog, and PROCESS_EVENT, CONNECTION_STATUS, ERROR and unknown
types leave local state unchanged. -/
def clientHandleMessage (st : ClientState) (msg : WSMessage) : ClientState :=
  match msg.type, msg.data with
  | WSType.PROCESS_LIST_UPDATE, WSData.processList ps =>
      { st with processStore := setProcesses st.processStore ps }
  | WSType.LOG_MESSAGE, WSData.log e =>
      { st with logStore := addLog st.logStore e }
  | _, _ => st

/-- C9: applying the same PROCESS_LIST_UPDATE event twice to any client state
yields the same state as applying it once, because setProcesses is a full
replace of the process list rather than a merge. -/
theorem c9_snapshot_idempotent (st : ClientState) (ps : List ProcessInfo) (ts : Nat) :
    clientHandleMessage
        (clientHandleMessage st
          { type := WSType.PROCESS_LIST_UPDATE, data := WSData.processList ps, timestamp := ts })
        { type := WSType.PROCESS_LIST_UPDATE, data := WSData.processList ps, timestamp := ts }
      = clientHandleMessage st
          { type := WSType.PROCESS_LIST_UPDATE, data := WSData.processList ps, timestamp := ts }
    ∧ setProcesses (setProcesses st.processStore ps) ps = setProcesses st.processStore ps := by
  constructor
  · simp [clientHandleMessage, setProcesses]
  · simp [setProcesses]

/-- Client-to-server messages after parsing in handleMessage. -/
inductive ClientMsg
| subscribeLogs (processId : SubKey)
| unsubscribeLogs (processId : SubKey)
| unknownType
deriving DecidableEq, Repr

/-- JS Set.add on the subscription set: no-op when present, else insert. -/
def subsAdd (subs : List SubKey) (k : SubKey) : List SubKey :=
  if subs.contains k then subs else subs ++ [k]

/-- JS Set.delete on the subscription set: remove exactly that element. -/
def subsDelete (subs : List SubKey) (k : SubKey) : List SubKey :=
  subs.filter (fun x => x != k)

/-- WebSocketManager.handleMessage on a parsed message: SUBSCRIBE_LOGS adds
the process id to that session's subscription set, UNSUBSCRIBE_LOGS deletes
it, anything else only logs. -/
def handleClientMessage (ws : ClientSession) (msg : ClientMsg) : ClientSession :=
  match msg with
  | ClientMsg.subscribeLogs p => { ws with subscriptions := subsAdd ws.subscriptions p }
  | ClientMsg.unsubscribeLogs p => { ws with subscriptions := subsDelete ws.subscriptions p }
  | ClientMsg.unknownType => ws

/-- WebSocketManager.handleConnection initialization of a fresh session:
liveness up and the subscription set holding the wildcard. -/
def handleConnection (ws : ClientSession) : ClientSession :=
  { ws with isAlive := true, subscriptions := [SubKey.all] }

/-- C10: deleting the wildcard from a subscription set removes only the
wildcard element and keeps every individually subscribed process id; a
session that connects (default wildcard), subscribes to process 7 and then
unsubscribes from the wildcard holds exactly the subscription for process 7,
and is still delivered every LOG_MESSAGE fan-out keyed by process 7. -/
theorem c10_unsubscribe_all (subs : List SubKey) (m : Nat) (ws : ClientSession)
    (clients : List ClientSession) (msg : WSMessage) :
    SubKey.all ∉ subsDelete subs SubKey.all
    ∧ (SubKey.pid m ∈ subs → SubKey.pid m ∈ subsDelete subs SubKey.all)
    ∧ (handleClientMessage
        (handleClientMessage (handleConnection ws)
          (ClientMsg.subscribeLogs (SubKey.pid 7)))
        (ClientMsg.unsubscribeLogs SubKey.all)).subscriptions = [SubKey.pid 7]
    ∧ (∀ s ∈ clients, s.subscriptions = [SubKey.pid 7] →
        s.readyState = ReadyState.OPEN → s.sendFails = false →
        delivered (broadcastToSubscribers clients 7 msg) s) := by
  refine ⟨?_, ?_, ?_, ?_⟩
  · intro hmem
    have := (List.mem_filter.1 hmem).2
    simp at this
  · intro hmem
    exact List.mem_filter.2 ⟨hmem, by simp⟩
  · simp [handleClientMessage, handleConnection, subsAdd, subsDelete]
  · intro s hsmem hsub ho hf
    refine (delivered_broadcastToSubscribers_iff clients 7 msg s).2 ⟨hsmem, ?_, ho, hf⟩
    unfold subscribedTo
    rw [hsub]
    simp

/-- Witness for C10 at a concrete input: the set holding the wildcard and
process 7, and a one-session client set subscribed exactly to process 7. -/
theorem c10_unsubscribe_all_witness :
    SubKey.pid 7 ∈ subsDelete [SubKey.all, SubKey.pid 7] SubKey.all
    ∧ delivered
        (broadcastToSubscribers
          [{ sid := 4, isAlive := true, subscriptions := [SubKey.pid 7],
             readyState := ReadyState.OPEN, sendFails := false }] 7
          { type := WSType.LOG_MESSAGE,
            data := WSData.errorInfo "payload", timestamp := 3 })
        { sid := 4, isAlive := true, subscriptions := [SubKey.pid 7],
          readyState := ReadyState.OPEN, sendFails := false } := by
  have h := c10_unsubscribe_all [SubKey.all, SubKey.pid 7] 7
    { sid := 4, isAlive := true, subscriptions := [SubKey.pid 7],
      readyState := ReadyState.OPEN, sendFails := false }
    [{ sid := 4, isAlive := true, subscriptions := [SubKey.pid 7],
       readyState := ReadyState.OPEN, sendFails := false }]
    { type := WSType.LOG_MESSAGE, data := WSData.errorInfo "payload", timestamp := 3 }
  exact ⟨h.2.1 (by decide), h.2.2.2 _ (by simp) rfl rfl rfl⟩

end PM2GUI
